import Mathlib

/-!
# Scene It virtual camera: the shared-memory frame channel

A shallow embedding of the IPC part of `SceneItVirtualCamera.cpp`
(`SceneItVirtualCamera_InitializeIPC`, `SceneItVirtualCamera_CleanupIPC`,
`SceneItVirtualCamera_GetNextFrame`) and of the region layout declared in
`SceneItVirtualCamera.h`.

Conventions of the embedding.

* `uint32_t` / `uint64_t` fields are natural numbers; arithmetic the code does
  on them is written with an explicit `% 2 ^ 32`.
* The three module-level handles are fields of `IPCState`, next to the part of
  the operating system the code talks to: the named shared-memory object, the
  live mappings, and the list of system calls issued so far.
* The results of `shm_open`, `ftruncate`, `mmap` and `sem_open` are inputs
  (`InitEnv`); whether `CVPixelBufferCreateWithBytes` succeeds is an input
  (`CVCreateOk`).
* An array access outside `frames[8]` / `frameData[8]`, and a dereference of a
  pointer that is not a live mapping, have no defined result: the functions
  return `none` there.
* `GetNextFrame_bytes` is the same body with the two array accesses resolved by
  address under the layout of the header; it says which bytes an index outside
  the ring reads and writes, and equals the array-level body inside the ring.
-/

namespace SceneIt

/-! ## Constants and region layout (`SceneItVirtualCamera.h`, lines 29-53) -/

/-- The macro `kSceneItMaxFrameSize`, `(1920 * 1080 * 4)`. -/
abbrev kSceneItMaxFrameSize : Nat := 1920 * 1080 * 4

/-- The macro `kSceneItFrameRingBufferSize`. -/
abbrev kSceneItFrameRingBufferSize : Nat := 8

/-- The platform constant `kCVPixelFormatType_32BGRA`, the four-character code `BGRA`. -/
abbrev kCVPixelFormatType_32BGRA : Nat := 0x42475241

/-- The platform constant `noErr`. -/
abbrev noErr : Int := 0

/-- The struct `SceneItFrameMetadata` (header lines 36-44). -/
structure SceneItFrameMetadata where
  width : Nat
  height : Nat
  bytesPerRow : Nat
  pixelFormat : Nat
  timestamp : Nat
  frameIndex : Nat
  isValid : Bool
deriving DecidableEq, Repr

/-- The struct `SceneItSharedMemory` (header lines 47-53). A payload
`frameData[i]` is the map from a byte offset to the byte stored there. -/
structure SceneItSharedMemory where
  writeIndex : Nat
  readIndex : Nat
  frameCount : Nat
  frames : Fin kSceneItFrameRingBufferSize → SceneItFrameMetadata
  frameData : Fin kSceneItFrameRingBufferSize → Nat → Nat

/-- The region after `memset(gSharedMemory, 0, sharedMemorySize)`: every byte zero. -/
def zeroRegion : SceneItSharedMemory where
  writeIndex := 0
  readIndex := 0
  frameCount := 0
  frames := fun _ => ⟨0, 0, 0, 0, 0, 0, false⟩
  frameData := fun _ _ => 0

/-! ## The pixel buffer handed to the caller -/

/-- What a `CVPixelBufferRef` made by `CVPixelBufferCreateWithBytes` refers to:
the geometry and format it was given and the memory it wraps. The buffer does
not copy: `baseAddress` is the slot whose payload `frameData[slot]` it points
into. -/
structure CVPixelBuffer where
  width : Nat
  height : Nat
  pixelFormatType : Nat
  baseAddress : Fin kSceneItFrameRingBufferSize
  bytesPerRow : Nat
deriving DecidableEq, Repr

/-- Whether the platform call `CVPixelBufferCreateWithBytes` succeeds for a
given width, height, pixel format and bytes-per-row. The platform decides; the
code does not look at the return code. -/
abbrev CVCreateOk : Type := Nat → Nat → Nat → Nat → Bool

/-- The platform call `CVPixelBufferCreateWithBytes(NULL, width, height,
pixelFormat, baseAddress, bytesPerRow, NULL, NULL, NULL, &pixelBuffer)` as the
code uses it: on success `pixelBuffer` wraps the given memory with the given
geometry, on failure it keeps its initial value `NULL`. -/
def CVPixelBufferCreateWithBytes (cvOk : CVCreateOk) (width height pixelFormat : Nat)
    (baseAddress : Fin kSceneItFrameRingBufferSize) (bytesPerRow : Nat) :
    Option CVPixelBuffer :=
  if cvOk width height pixelFormat bytesPerRow then
    some ⟨width, height, pixelFormat, baseAddress, bytesPerRow⟩
  else none

/-- The number of bytes a pixel buffer spans from its base address. -/
def CVPixelBuffer.extent (b : CVPixelBuffer) : Nat := b.height * b.bytesPerRow

/-- A platform that accepts every 32-bit BGRA request with a positive size and
a stride of at least four bytes per pixel, and nothing else. Used for concrete
runs only. -/
def cvAcceptsBGRA : CVCreateOk := fun width height pixelFormat bytesPerRow =>
  decide (0 < width) && decide (0 < height) &&
    decide (pixelFormat = kCVPixelFormatType_32BGRA) && decide (width * 4 ≤ bytesPerRow)

/-- A platform on which `CVPixelBufferCreateWithBytes` fails for every request.
Used for concrete runs only. -/
def cvRefusesAll : CVCreateOk := fun _ _ _ _ => false

/-! ## `SceneItVirtualCamera_GetNextFrame` on the mapped region -/

/-- Lines 468-499 of `SceneItVirtualCamera_GetNextFrame`: the body that runs on
the mapped region once `gSharedMemory` is known to be non-NULL. The result is
the returned `CVPixelBufferRef` (`none` for `NULL`) and the region afterwards;
the outer `none` is an access outside the eight-slot arrays. -/
def GetNextFrame_attached (cvOk : CVCreateOk) (m : SceneItSharedMemory) :
    Option (Option CVPixelBuffer × SceneItSharedMemory) :=
  -- if (gSharedMemory->frameCount == 0) return NULL;
  if m.frameCount = 0 then some (none, m)
  else
    -- uint32_t readIndex = gSharedMemory->readIndex;
    let readIndex := m.readIndex
    if h : readIndex < kSceneItFrameRingBufferSize then
      -- SceneItFrameMetadata* metadata = &gSharedMemory->frames[readIndex];
      let slot : Fin kSceneItFrameRingBufferSize := ⟨readIndex, h⟩
      let metadata := m.frames slot
      -- if (!metadata->isValid) return NULL;
      if metadata.isValid = false then some (none, m)
      else
        -- uint8_t* frameData = gSharedMemory->frameData[readIndex];
        let pixelBuffer := CVPixelBufferCreateWithBytes cvOk metadata.width metadata.height
          metadata.pixelFormat slot metadata.bytesPerRow
        -- metadata->isValid = false;
        let m1 : SceneItSharedMemory :=
          { m with frames := Function.update m.frames slot { metadata with isValid := false } }
        -- gSharedMemory->readIndex = (readIndex + 1) % kSceneItFrameRingBufferSize;
        let m2 : SceneItSharedMemory :=
          { m1 with readIndex := (readIndex + 1) % 2 ^ 32 % kSceneItFrameRingBufferSize }
        -- __sync_fetch_and_sub(&gSharedMemory->frameCount, 1);
        let m3 : SceneItSharedMemory :=
          { m2 with frameCount := (m2.frameCount + 2 ^ 32 - 1) % 2 ^ 32 }
        some (pixelBuffer, m3)
    else none

/-! ## Handles and the operating system -/

/-- A pointer-valued handle: `NULL`, the failure value `(void*)-1` that is both
`MAP_FAILED` and `SEM_FAILED`, or a real address. -/
inductive Ptr where
  | null
  | failed
  | addr (a : Nat)
deriving DecidableEq, Repr

/-- The shared-memory object behind the name `kSceneItSharedMemoryName`: not
there, there with size zero (just created by `shm_open`), or sized and holding
a region. -/
inductive ShmObject where
  | absent
  | created
  | sized (m : SceneItSharedMemory)

/-- The system calls the IPC code issues, with the values that matter. -/
inductive Syscall where
  | shm_open (fd : Option Nat)
  | ftruncate (fd : Int) (ok : Bool)
  | mmap (fd : Int) (addr : Option Nat)
  | memset (p : Ptr)
  | sem_open (sem : Option Nat)
  | sem_close (sem : Ptr)
  | sem_unlink
  | munmap (p : Ptr)
  | close (fd : Int)
  | shm_unlink
deriving DecidableEq, Repr

/-- The module-level IPC handles (`.cpp` lines 23-25) together with the state
of the operating system they refer to. -/
structure IPCState where
  gSharedMemory : Ptr
  gSharedMemoryFD : Int
  gFrameSemaphore : Ptr
  shm : ShmObject
  mapped : List Nat
  trace : List Syscall

/-- The results the operating system gives to one run of
`SceneItVirtualCamera_InitializeIPC`: `none` is the failure value of the call
(`-1`, `MAP_FAILED`, `SEM_FAILED`), `false` a failed `ftruncate`. -/
structure InitEnv where
  shm_open : Option Nat
  ftruncate : Bool
  mmap : Option Nat
  sem_open : Option Nat
deriving DecidableEq, Repr

/-- The handles as the module declares them (`NULL`, `-1`, `NULL`), nothing
created, mapped or called yet. -/
def IPCState.start : IPCState where
  gSharedMemory := .null
  gSharedMemoryFD := -1
  gFrameSemaphore := .null
  shm := .absent
  mapped := []
  trace := []

/-- The object after `shm_open(name, O_CREAT | O_RDWR, 0666)` succeeds: created
empty when absent, otherwise the existing one. -/
def ShmObject.opened : ShmObject → ShmObject
  | .absent => .created
  | o => o

/-- The object after `ftruncate(fd, sizeof(SceneItSharedMemory))` succeeds: a
new object is extended with zero bytes, one that already has the size keeps its
content. -/
def ShmObject.truncated : ShmObject → ShmObject
  | .sized m => .sized m
  | _ => .sized zeroRegion

/-- `SceneItVirtualCamera_InitializeIPC` (`.cpp` lines 407-440). Returns the
`OSStatus` and the state afterwards. -/
def SceneItVirtualCamera_InitializeIPC (env : InitEnv) (s : IPCState) : Int × IPCState :=
  -- gSharedMemoryFD = shm_open(kSceneItSharedMemoryName, O_CREAT | O_RDWR, 0666);
  match env.shm_open with
  | none =>
    -- if (gSharedMemoryFD == -1) return -1;
    (-1, { s with gSharedMemoryFD := -1, trace := s.trace ++ [.shm_open none] })
  | some fd =>
    let s1 : IPCState :=
      { s with gSharedMemoryFD := fd, shm := s.shm.opened,
               trace := s.trace ++ [.shm_open (some fd)] }
    -- if (ftruncate(gSharedMemoryFD, sharedMemorySize) == -1) { close(gSharedMemoryFD); return -1; }
    if env.ftruncate = false then
      (-1, { s1 with trace := s1.trace ++
              [.ftruncate s1.gSharedMemoryFD false, .close s1.gSharedMemoryFD] })
    else
      let s2 : IPCState :=
        { s1 with shm := s1.shm.truncated,
                  trace := s1.trace ++ [.ftruncate s1.gSharedMemoryFD true] }
      -- gSharedMemory = (SceneItSharedMemory*)mmap(NULL, size, ..., MAP_SHARED, gSharedMemoryFD, 0);
      match env.mmap with
      | none =>
        -- if (gSharedMemory == MAP_FAILED) { close(gSharedMemoryFD); return -1; }
        (-1, { s2 with gSharedMemory := .failed,
                       trace := s2.trace ++
                         [.mmap s2.gSharedMemoryFD none, .close s2.gSharedMemoryFD] })
      | some a =>
        let s3 : IPCState :=
          { s2 with gSharedMemory := .addr a, mapped := a :: s2.mapped,
                    trace := s2.trace ++ [.mmap s2.gSharedMemoryFD (some a)] }
        -- memset(gSharedMemory, 0, sharedMemorySize);
        let s4 : IPCState :=
          { s3 with shm := .sized zeroRegion,
                    trace := s3.trace ++ [.memset s3.gSharedMemory] }
        -- gFrameSemaphore = sem_open(kSceneItSemaphoreName, O_CREAT, 0666, 0);
        match env.sem_open with
        | none =>
          -- if (gFrameSemaphore == SEM_FAILED) { munmap(...); close(gSharedMemoryFD); return -1; }
          (-1, { s4 with gFrameSemaphore := .failed, mapped := s4.mapped.erase a,
                         trace := s4.trace ++
                           [.sem_open none, .munmap s4.gSharedMemory,
                            .close s4.gSharedMemoryFD] })
        | some p =>
          -- return noErr;
          (noErr, { s4 with gFrameSemaphore := .addr p,
                            trace := s4.trace ++ [.sem_open (some p)] })

/-- `SceneItVirtualCamera_CleanupIPC` (`.cpp` lines 442-461). A handle passes
the test `h && h != FAILED` exactly when it is a real address. -/
def SceneItVirtualCamera_CleanupIPC (s : IPCState) : Int × IPCState :=
  -- if (gFrameSemaphore && gFrameSemaphore != SEM_FAILED) { sem_close; sem_unlink; = NULL }
  let s1 : IPCState :=
    match s.gFrameSemaphore with
    | .addr p =>
      { s with gFrameSemaphore := .null,
               trace := s.trace ++ [.sem_close (.addr p), .sem_unlink] }
    | _ => s
  -- if (gSharedMemory && gSharedMemory != MAP_FAILED) { munmap; = NULL }
  let s2 : IPCState :=
    match s1.gSharedMemory with
    | .addr a =>
      { s1 with gSharedMemory := .null, mapped := s1.mapped.erase a,
                trace := s1.trace ++ [.munmap (.addr a)] }
    | _ => s1
  -- if (gSharedMemoryFD != -1) { close; shm_unlink; = -1 }
  let s3 : IPCState :=
    if s2.gSharedMemoryFD ≠ -1 then
      { s2 with gSharedMemoryFD := -1, shm := .absent,
                trace := s2.trace ++ [.close s2.gSharedMemoryFD, .shm_unlink] }
    else s2
  -- return noErr;
  (noErr, s3)

/-- `SceneItVirtualCamera_GetNextFrame` (`.cpp` lines 463-500) on the module
state. `NULL` handle: returns `NULL`. Otherwise the body runs on the memory the
handle points at; that memory is the shared object when the handle is a live
mapping of a sized object, and no defined memory otherwise. -/
def SceneItVirtualCamera_GetNextFrame (cvOk : CVCreateOk) (s : IPCState) :
    Option (Option CVPixelBuffer × IPCState) :=
  match s.gSharedMemory with
  -- if (!gSharedMemory) return NULL;
  | .null => some (none, s)
  | .failed => none
  | .addr a =>
    if a ∈ s.mapped then
      match s.shm with
      | .sized m =>
        match GetNextFrame_attached cvOk m with
        | some (pixelBuffer, m') => some (pixelBuffer, { s with shm := .sized m' })
        | none => none
      | _ => none
    else none

/-- The module state is attached to region `m`: the handle is a live mapping
and the shared object holds `m`. -/
def Attached (s : IPCState) (m : SceneItSharedMemory) : Prop :=
  ∃ a, s.gSharedMemory = .addr a ∧ a ∈ s.mapped ∧ s.shm = .sized m

/-- The module state with the content of the shared object replaced. -/
def IPCState.withRegion (s : IPCState) (m : SceneItSharedMemory) : IPCState :=
  { s with shm := .sized m }

/-- A state attached to region `m` through mapping address `4096`, descriptor
`3` and a semaphore, as after a successful initialisation. -/
def attachedTo (m : SceneItSharedMemory) : IPCState where
  gSharedMemory := .addr 4096
  gSharedMemoryFD := 3
  gFrameSemaphore := .addr 1
  shm := .sized m
  mapped := [4096]
  trace := []

/-- The region the body leaves behind when it takes the frame at `slot`
(lines 495-497): flag cleared, read index advanced, count decremented. -/
def afterTake (m : SceneItSharedMemory) (slot : Fin kSceneItFrameRingBufferSize) :
    SceneItSharedMemory :=
  { m with
    frames := Function.update m.frames slot { m.frames slot with isValid := false }
    readIndex := (m.readIndex + 1) % 2 ^ 32 % kSceneItFrameRingBufferSize
    frameCount := (m.frameCount + 2 ^ 32 - 1) % 2 ^ 32 }

/-- The pixel buffer request the body makes for the descriptor at `slot`
(lines 485-492). -/
def bufferOfSlot (cvOk : CVCreateOk) (m : SceneItSharedMemory)
    (slot : Fin kSceneItFrameRingBufferSize) : Option CVPixelBuffer :=
  CVPixelBufferCreateWithBytes cvOk (m.frames slot).width (m.frames slot).height
    (m.frames slot).pixelFormat slot (m.frames slot).bytesPerRow

/-- The caller's loop: `n` calls of `SceneItVirtualCamera_GetNextFrame` one
after the other, collecting what each call returns, first call first. -/
def callGetNextFrame (cvOk : CVCreateOk) : Nat → IPCState →
    Option (List (Option CVPixelBuffer) × IPCState)
  | 0, s => some ([], s)
  | n + 1, s =>
    match SceneItVirtualCamera_GetNextFrame cvOk s with
    | none => none
    | some (b, s1) =>
      match callGetNextFrame cvOk n s1 with
      | none => none
      | some (bs, s2) => some (b :: bs, s2)

/-- The pixel buffer request for slot number `i`, when `i` is a slot. -/
def slotBuffer (cvOk : CVCreateOk) (m : SceneItSharedMemory) (i : Nat) : Option CVPixelBuffer :=
  if h : i < kSceneItFrameRingBufferSize then bufferOfSlot cvOk m ⟨i, h⟩ else none

/-- The pixel buffer that wraps slot `slot` with the geometry of its descriptor. -/
def wrapSlot (m : SceneItSharedMemory) (slot : Fin kSceneItFrameRingBufferSize) : CVPixelBuffer :=
  ⟨(m.frames slot).width, (m.frames slot).height, (m.frames slot).pixelFormat, slot,
    (m.frames slot).bytesPerRow⟩

/-! ## Concrete regions used in the runs below -/

/-- A full-HD BGRA descriptor, flagged valid, with timestamp `t` and index `i`. -/
def hdFrame (t i : Nat) : SceneItFrameMetadata :=
  ⟨1920, 1080, 7680, kCVPixelFormatType_32BGRA, t, i, true⟩

/-- A payload pattern that differs from slot to slot and from byte to byte. -/
def patternData (slot : Fin kSceneItFrameRingBufferSize) (offset : Nat) : Nat :=
  (slot.val * 31 + offset) % 256

/-- The region after `n` frames were written into slots `0 .. n-1` of a zeroed
region and none was taken: descriptor `i` is `hdFrame (1000 + i) i`. -/
def publishedRegion (n : Nat) : SceneItSharedMemory where
  writeIndex := n % kSceneItFrameRingBufferSize
  readIndex := 0
  frameCount := n
  frames := fun i => if i.val < n then hdFrame (1000 + i.val) i.val else ⟨0, 0, 0, 0, 0, 0, false⟩
  frameData := fun i => if i.val < n then patternData i else fun _ => 0

/-- A region whose count says two frames are waiting while the slot at the
read index, slot 3, is not flagged valid. -/
def staleRegion : SceneItSharedMemory :=
  { zeroRegion with readIndex := 3, frameCount := 2 }

/-- The region held by the shared object, when it is sized. -/
def ShmObject.region : ShmObject → Option SceneItSharedMemory
  | .sized m => some m
  | _ => none

/-- The resources a process holds: open descriptors, live mappings, open
semaphores. -/
structure Held where
  fds : List Int
  maps : List Ptr
  sems : List Ptr
deriving DecidableEq, Repr

/-- The effect of one system call on the resources held; `none` when the call
releases something that is not held (a descriptor already closed, a region not
mapped, a semaphore not open). -/
def Held.step (h : Held) : Syscall → Option Held
  | .shm_open (some fd) => some { h with fds := (fd : Int) :: h.fds }
  | .mmap _ (some a) => some { h with maps := Ptr.addr a :: h.maps }
  | .sem_open (some p) => some { h with sems := Ptr.addr p :: h.sems }
  | .close fd => if fd ∈ h.fds then some { h with fds := h.fds.erase fd } else none
  | .munmap p => if p ∈ h.maps then some { h with maps := h.maps.erase p } else none
  | .sem_close p => if p ∈ h.sems then some { h with sems := h.sems.erase p } else none
  | _ => some h

/-- The resources held after a list of system calls, `none` as soon as one of
them releases something not held. -/
def Held.run : Held → List Syscall → Option Held
  | h, [] => some h
  | h, c :: cs =>
    match h.step c with
    | none => none
    | some h1 => Held.run h1 cs

/-- Whether every release in a list of system calls, started with nothing
held, targets a resource held at that moment. -/
def releasesOnlyHeld (calls : List Syscall) : Bool :=
  (Held.run ⟨[], [], []⟩ calls).isSome

/-- An operating system on which every call of the initialisation succeeds:
descriptor 3, mapping at 4096, semaphore 1. -/
def envAllOk : InitEnv := ⟨some 3, true, some 4096, some 1⟩

/-- An operating system on which `ftruncate` fails after `shm_open` gave descriptor 3. -/
def envFtruncateFails : InitEnv := ⟨some 3, false, some 4096, some 1⟩

/-- An operating system on which `mmap` fails. -/
def envMmapFails : InitEnv := ⟨some 3, true, none, some 1⟩

/-- An operating system on which `sem_open` fails. -/
def envSemOpenFails : InitEnv := ⟨some 3, true, some 4096, none⟩

/-- A process that has not initialised yet while the named region already
exists and holds three unread frames written through another attachment. -/
def secondAttach : IPCState :=
  { IPCState.start with shm := .sized (publishedRegion 3) }

/-- A region whose count is outside `[0, 8]`: one valid full-HD frame in slot
0 and `frameCount = 9`. -/
def overCountRegion : SceneItSharedMemory :=
  { publishedRegion 1 with frameCount := 9 }

/-- A region whose slot 0 is flagged valid with a geometry larger than a
payload: 1920 x 1081 at 7680 bytes per row is 8302080 bytes, the payload has
8294400. -/
def oversizeRegion : SceneItSharedMemory :=
  { zeroRegion with
    frameCount := 1
    writeIndex := 1
    frames := fun i =>
      if i.val = 0 then ⟨1920, 1081, 7680, kCVPixelFormatType_32BGRA, 0, 0, true⟩
      else ⟨0, 0, 0, 0, 0, 0, false⟩ }

/-- A region with one published full-HD frame in slot 0 carrying timestamp `t`
and frame index `i`. -/
def stampedRegion (t i : Nat) : SceneItSharedMemory :=
  { zeroRegion with
    frameCount := 1
    writeIndex := 1
    frames := fun j => if j.val = 0 then hdFrame t i else ⟨0, 0, 0, 0, 0, 0, false⟩
    frameData := fun j => if j.val = 0 then patternData j else fun _ => 0 }

/-! ## The region as bytes: what an index outside `frames[8]` touches

The header fixes the layout of `SceneItSharedMemory` (LP64, as on macOS):
`writeIndex`, `readIndex`, `frameCount` at bytes 0, 4, 8; four bytes of padding;
`frames[k]` at byte `16 + 32 * k`; `frameData` at byte `16 + 8 * 32 = 272`.
`SceneItFrameMetadata` is 32 bytes: `width` 0, `height` 4, `bytesPerRow` 8,
`pixelFormat` 12, `timestamp` 16, `frameIndex` 24, `isValid` 28, padding 29-31.
So for `k ≥ 8` the element `frames[k]` is the 32 bytes of `frameData` that
start at byte `32 * (k - 8)` of the payload area, counted from `frameData[0][0]`.
-/

/-- The value `sizeof(SceneItFrameMetadata)`. -/
abbrev sizeofFrameMetadata : Nat := 32

/-- The value `offsetof(SceneItFrameMetadata, isValid)`. -/
abbrev offsetofIsValid : Nat := 28

/-- The byte at position `f` of the payload area, counted from
`frameData[0][0]`: it is `frameData[f / kSceneItMaxFrameSize][f % kSceneItMaxFrameSize]`;
`none` past the end of the region. -/
def payloadByte (m : SceneItSharedMemory) (f : Nat) : Option Nat :=
  if h : f / kSceneItMaxFrameSize < kSceneItFrameRingBufferSize then
    some (m.frameData ⟨f / kSceneItMaxFrameSize, h⟩ (f % kSceneItMaxFrameSize))
  else none

/-- The region with the byte at position `f` of the payload area set to `v`. -/
def setPayloadByte (m : SceneItSharedMemory) (f v : Nat) : SceneItSharedMemory :=
  if h : f / kSceneItMaxFrameSize < kSceneItFrameRingBufferSize then
    { m with frameData := Function.update m.frameData ⟨f / kSceneItMaxFrameSize, h⟩
               (Function.update (m.frameData ⟨f / kSceneItMaxFrameSize, h⟩)
                 (f % kSceneItMaxFrameSize) v) }
  else m

/-- The little-endian unsigned integer held in the `n` bytes that start at
position `f` of the payload area. -/
def payloadUInt (m : SceneItSharedMemory) (f : Nat) : Nat → Option Nat
  | 0 => some 0
  | n + 1 =>
    match payloadByte m f, payloadUInt m (f + 1) n with
    | some b, some rest => some (b + 256 * rest)
    | _, _ => none

/-- The descriptor the code reads through `&gSharedMemory->frames[k]`: the
array element for `k < 8`; for `k ≥ 8` the 32 bytes of the payload area at
`32 * (k - 8)`, field by field. The flag byte is a `bool` only when it is 0 or
1; `none` for any other byte and past the end of the region. -/
def descriptorAt (m : SceneItSharedMemory) (k : Nat) : Option SceneItFrameMetadata :=
  if h : k < kSceneItFrameRingBufferSize then some (m.frames ⟨k, h⟩)
  else
    let base := sizeofFrameMetadata * (k - kSceneItFrameRingBufferSize)
    match payloadUInt m base 4, payloadUInt m (base + 4) 4, payloadUInt m (base + 8) 4,
      payloadUInt m (base + 12) 4, payloadUInt m (base + 16) 8, payloadUInt m (base + 24) 4,
      payloadByte m (base + offsetofIsValid) with
    | some width, some height, some bytesPerRow, some pixelFormat, some timestamp,
      some frameIndex, some flag =>
      if flag = 0 then some ⟨width, height, bytesPerRow, pixelFormat, timestamp, frameIndex, false⟩
      else if flag = 1 then
        some ⟨width, height, bytesPerRow, pixelFormat, timestamp, frameIndex, true⟩
      else none
    | _, _, _, _, _, _, _ => none

/-- The region after the store `gSharedMemory->frames[k].isValid = false`: the
flag of the array element for `k < 8`; for `k ≥ 8` the byte at
`32 * (k - 8) + 28` of the payload area. -/
def clearIsValidAt (m : SceneItSharedMemory) (k : Nat) : SceneItSharedMemory :=
  if h : k < kSceneItFrameRingBufferSize then
    { m with frames := Function.update m.frames ⟨k, h⟩ { m.frames ⟨k, h⟩ with isValid := false } }
  else
    setPayloadByte m (sizeofFrameMetadata * (k - kSceneItFrameRingBufferSize) + offsetofIsValid) 0

/-- A pixel buffer described by where its memory starts: `baseOffset` is the
byte position of its base address counted from `frameData[0][0]`. -/
structure CVPixelBufferAt where
  width : Nat
  height : Nat
  pixelFormatType : Nat
  baseOffset : Nat
  bytesPerRow : Nat
deriving DecidableEq, Repr

/-- The pixel buffer over slot `baseAddress`, described by its byte position. -/
def CVPixelBuffer.toAt (b : CVPixelBuffer) : CVPixelBufferAt :=
  ⟨b.width, b.height, b.pixelFormatType, b.baseAddress.val * kSceneItMaxFrameSize, b.bytesPerRow⟩

/-- Lines 468-499 of `SceneItVirtualCamera_GetNextFrame` on the bytes of the
region: the same statements as `GetNextFrame_attached`, with the accesses
`frames[readIndex]` and `frameData[readIndex]` resolved by address, so that a
`readIndex` of 8 or more, which the code does not test for, reads and writes
the payload bytes that lie where `frames[readIndex]` would be. -/
def GetNextFrame_bytes (cvOk : CVCreateOk) (m : SceneItSharedMemory) :
    Option (Option CVPixelBufferAt × SceneItSharedMemory) :=
  -- if (gSharedMemory->frameCount == 0) return NULL;
  if m.frameCount = 0 then some (none, m)
  else
    -- uint32_t readIndex = gSharedMemory->readIndex;
    let readIndex := m.readIndex
    -- SceneItFrameMetadata* metadata = &gSharedMemory->frames[readIndex];
    match descriptorAt m readIndex with
    | none => none
    | some metadata =>
      -- if (!metadata->isValid) return NULL;
      if metadata.isValid = false then some (none, m)
      else
        -- uint8_t* frameData = gSharedMemory->frameData[readIndex];
        let pixelBuffer : Option CVPixelBufferAt :=
          if cvOk metadata.width metadata.height metadata.pixelFormat metadata.bytesPerRow then
            some ⟨metadata.width, metadata.height, metadata.pixelFormat,
              readIndex * kSceneItMaxFrameSize, metadata.bytesPerRow⟩
          else none
        -- metadata->isValid = false;
        let m1 : SceneItSharedMemory := clearIsValidAt m readIndex
        -- gSharedMemory->readIndex = (readIndex + 1) % kSceneItFrameRingBufferSize;
        let m2 : SceneItSharedMemory :=
          { m1 with readIndex := (readIndex + 1) % 2 ^ 32 % kSceneItFrameRingBufferSize }
        -- __sync_fetch_and_sub(&gSharedMemory->frameCount, 1);
        let m3 : SceneItSharedMemory :=
          { m2 with frameCount := (m2.frameCount + 2 ^ 32 - 1) % 2 ^ 32 }
        some (pixelBuffer, m3)

/-- A region whose read index is 8, one past the ring: `frameCount = 1`, every
descriptor zero, and payload byte `frameData[0][28]` equal to 1, every other
payload byte 0. -/
def beyondRegion : SceneItSharedMemory :=
  { zeroRegion with
    readIndex := 8
    frameCount := 1
    frameData := fun i offset => if i.val = 0 ∧ offset = 28 then 1 else 0 }

/-! ## Bridging lemmas -/

theorem attachedTo_attached (m : SceneItSharedMemory) : Attached (attachedTo m) m :=
  ⟨4096, rfl, by simp [attachedTo], rfl⟩

theorem withRegion_self {s : IPCState} {m : SceneItSharedMemory} (h : s.shm = .sized m) :
    s.withRegion m = s := by
  cases s
  simp only [IPCState.withRegion] at *
  simp [h]

theorem withRegion_attached {s : IPCState} {m : SceneItSharedMemory} (h : Attached s m)
    (m' : SceneItSharedMemory) : Attached (s.withRegion m') m' := by
  obtain ⟨a, h1, h2, _⟩ := h
  exact ⟨a, h1, h2, rfl⟩

/-- On an attached state the function is its body run on the region. -/
theorem getNextFrame_of_attached (cvOk : CVCreateOk) {s : IPCState} {m : SceneItSharedMemory}
    (h : Attached s m) :
    SceneItVirtualCamera_GetNextFrame cvOk s =
      (GetNextFrame_attached cvOk m).map (fun r => (r.1, s.withRegion r.2)) := by
  obtain ⟨a, h1, h2, h3⟩ := h
  cases s
  simp only at h1 h2 h3
  subst h1 h3
  simp only [SceneItVirtualCamera_GetNextFrame, h2, if_true, IPCState.withRegion]
  cases GetNextFrame_attached cvOk m with
  | none => rfl
  | some r => rfl

/-- The body returns `NULL` and writes nothing when the count is zero. -/
theorem attached_count_zero (cvOk : CVCreateOk) (m : SceneItSharedMemory)
    (h : m.frameCount = 0) : GetNextFrame_attached cvOk m = some (none, m) := by
  simp [GetNextFrame_attached, h]

/-- The body returns `NULL` and writes nothing when the slot read is not valid. -/
theorem attached_slot_invalid (cvOk : CVCreateOk) (m : SceneItSharedMemory)
    (hr : m.readIndex < kSceneItFrameRingBufferSize)
    (hv : (m.frames ⟨m.readIndex, hr⟩).isValid = false) :
    GetNextFrame_attached cvOk m = some (none, m) := by
  unfold GetNextFrame_attached
  by_cases h0 : m.frameCount = 0
  · simp [h0]
  · simp [h0, hr, hv]

/-- The body takes the slot at the read index when the count is non-zero and
the slot is flagged valid. -/
theorem attached_take (cvOk : CVCreateOk) (m : SceneItSharedMemory)
    (h0 : m.frameCount ≠ 0) (hr : m.readIndex < kSceneItFrameRingBufferSize)
    (hv : (m.frames ⟨m.readIndex, hr⟩).isValid = true) :
    GetNextFrame_attached cvOk m =
      some (bufferOfSlot cvOk m ⟨m.readIndex, hr⟩, afterTake m ⟨m.readIndex, hr⟩) := by
  unfold GetNextFrame_attached
  rw [if_neg h0]
  simp only [dif_pos hr, hv]
  rfl

/-- The function returns `NULL` and changes nothing when the attached region
has a zero count or an invalid slot at the read index. -/
theorem C1_core (cvOk : CVCreateOk) (s : IPCState) (m : SceneItSharedMemory)
    (hatt : Attached s m)
    (h : m.frameCount = 0 ∨
      ∃ hr : m.readIndex < kSceneItFrameRingBufferSize,
        (m.frames ⟨m.readIndex, hr⟩).isValid = false) :
    SceneItVirtualCamera_GetNextFrame cvOk s = some (none, s) := by
  have hbody : GetNextFrame_attached cvOk m = some (none, m) := by
    rcases h with h | ⟨hr, hv⟩
    · exact attached_count_zero cvOk m h
    · exact attached_slot_invalid cvOk m hr hv
  obtain ⟨a, h1, h2, h3⟩ := hatt
  rw [getNextFrame_of_attached cvOk ⟨a, h1, h2, h3⟩, hbody]
  simp [withRegion_self h3]

/-! ## Claims -/

/-- C1: on an attached region, when `frameCount` is zero or the descriptor at
`frames[readIndex]` is not flagged valid, `SceneItVirtualCamera_GetNextFrame`
returns `NULL` and the whole state, region included, is what it was. -/
theorem C1_empty_returns_null_unchanged (cvOk : CVCreateOk) (s : IPCState)
    (m : SceneItSharedMemory) (hatt : Attached s m)
    (h : m.frameCount = 0 ∨
      ∃ hr : m.readIndex < kSceneItFrameRingBufferSize,
        (m.frames ⟨m.readIndex, hr⟩).isValid = false) :
    SceneItVirtualCamera_GetNextFrame cvOk s = some (none, s) := by
  exact C1_core cvOk s m hatt h

/-- C1 at a concrete state: count two, read index three, slot three not valid. -/
theorem C1_empty_returns_null_unchanged_witness :
    Attached (attachedTo staleRegion) staleRegion ∧
    (staleRegion.frameCount = 0 ∨
      ∃ hr : staleRegion.readIndex < kSceneItFrameRingBufferSize,
        (staleRegion.frames ⟨staleRegion.readIndex, hr⟩).isValid = false) ∧
    SceneItVirtualCamera_GetNextFrame cvAcceptsBGRA (attachedTo staleRegion) =
      some (none, attachedTo staleRegion) :=
  ⟨attachedTo_attached staleRegion, Or.inr ⟨by decide, rfl⟩,
    C1_empty_returns_null_unchanged cvAcceptsBGRA (attachedTo staleRegion) staleRegion
      (attachedTo_attached staleRegion) (Or.inr ⟨by decide, rfl⟩)⟩

/-- C2: on an attached region with `0 < frameCount` (a `uint32_t`),
`readIndex = r < 8` and `frames[r].isValid` true, the call takes the frame at
slot `r` (what it returns is the pixel buffer made from that slot) and leaves
`frames[r].isValid = false`, `readIndex = (r + 1) mod 8` and `frameCount` one
less than before. -/
theorem C2_take_updates_region (cvOk : CVCreateOk) (s : IPCState) (m : SceneItSharedMemory)
    (r : Fin kSceneItFrameRingBufferSize) (hatt : Attached s m)
    (hpos : 0 < m.frameCount) (hu32 : m.frameCount < 2 ^ 32)
    (hr : m.readIndex = r.val) (hv : (m.frames r).isValid = true) :
    ∃ m', SceneItVirtualCamera_GetNextFrame cvOk s =
        some (bufferOfSlot cvOk m r, s.withRegion m') ∧
      (m'.frames r).isValid = false ∧
      m'.readIndex = (r.val + 1) % 8 ∧
      m'.frameCount + 1 = m.frameCount := by
  have hlt : m.readIndex < kSceneItFrameRingBufferSize := hr ▸ r.isLt
  have hslot : (⟨m.readIndex, hlt⟩ : Fin kSceneItFrameRingBufferSize) = r := Fin.ext hr
  have hbody := attached_take cvOk m (Nat.pos_iff_ne_zero.mp hpos) hlt (by rw [hslot]; exact hv)
  rw [hslot] at hbody
  refine ⟨afterTake m r, ?_, ?_, ?_, ?_⟩
  · rw [getNextFrame_of_attached cvOk hatt, hbody]; rfl
  · simp [afterTake]
  · have h8 : r.val < 8 := r.isLt
    show (m.readIndex + 1) % 2 ^ 32 % 8 = (r.val + 1) % 8
    rw [hr]
    omega
  · show (m.frameCount + 2 ^ 32 - 1) % 2 ^ 32 + 1 = m.frameCount
    omega

/-- C2 at a concrete state: three frames waiting, slot 0 is taken. -/
theorem C2_take_updates_region_witness :
    Attached (attachedTo (publishedRegion 3)) (publishedRegion 3) ∧
    0 < (publishedRegion 3).frameCount ∧ (publishedRegion 3).frameCount < 2 ^ 32 ∧
    (publishedRegion 3).readIndex = (0 : Fin kSceneItFrameRingBufferSize).val ∧
    ((publishedRegion 3).frames 0).isValid = true ∧
    ∃ m', SceneItVirtualCamera_GetNextFrame cvAcceptsBGRA (attachedTo (publishedRegion 3)) =
        some (bufferOfSlot cvAcceptsBGRA (publishedRegion 3) 0,
          (attachedTo (publishedRegion 3)).withRegion m') ∧
      (m'.frames 0).isValid = false ∧
      m'.readIndex = ((0 : Fin kSceneItFrameRingBufferSize).val + 1) % 8 ∧
      m'.frameCount + 1 = (publishedRegion 3).frameCount :=
  ⟨attachedTo_attached _, by decide, by decide, rfl, rfl,
    C2_take_updates_region cvAcceptsBGRA (attachedTo (publishedRegion 3)) (publishedRegion 3) 0
      (attachedTo_attached _) (by decide) (by decide) rfl rfl⟩

/-- Slots other than the one taken keep their descriptor. -/
theorem afterTake_frames_ne (m : SceneItSharedMemory) (slot i : Fin kSceneItFrameRingBufferSize)
    (h : i ≠ slot) : (afterTake m slot).frames i = m.frames i := by
  simp [afterTake, Function.update_noteq h]

/-- The request for a slot other than the one taken is the same before and after. -/
theorem slotBuffer_afterTake (cvOk : CVCreateOk) (m : SceneItSharedMemory)
    (slot : Fin kSceneItFrameRingBufferSize) (i : Nat) (h : i ≠ slot.val) :
    slotBuffer cvOk (afterTake m slot) i = slotBuffer cvOk m i := by
  unfold slotBuffer
  by_cases hi : i < kSceneItFrameRingBufferSize
  · have hne : (⟨i, hi⟩ : Fin kSceneItFrameRingBufferSize) ≠ slot := fun e => h (congrArg Fin.val e)
    simp only [dif_pos hi, bufferOfSlot, afterTake_frames_ne m slot _ hne]
  · simp only [dif_neg hi]

/-- Draining `k` valid slots that start at slot `r`: the calls return the
requests for slots `r, r+1, ..., r+k-1` in that order and leave the count at
zero. -/
theorem callGetNextFrame_drain (cvOk : CVCreateOk) :
    ∀ (k : Nat) (s : IPCState) (m : SceneItSharedMemory) (r : Nat),
      Attached s m → m.frameCount = k → r + k ≤ kSceneItFrameRingBufferSize →
      (0 < k → m.readIndex = r) →
      (∀ i : Fin kSceneItFrameRingBufferSize, r ≤ i.val → i.val < r + k →
        (m.frames i).isValid = true) →
      ∃ m', callGetNextFrame cvOk k s =
          some ((List.range k).map (fun j => slotBuffer cvOk m (r + j)), s.withRegion m') ∧
        m'.frameCount = 0 := by
  intro k
  induction k with
  | zero =>
    intro s m r hatt hc _ _ _
    obtain ⟨a, h1, h2, h3⟩ := hatt
    exact ⟨m, by simp [callGetNextFrame, withRegion_self h3], hc⟩
  | succ k ih =>
    intro s m r hatt hc hle hri hv
    have hle8 : r + (k + 1) ≤ 8 := hle
    have hr : m.readIndex = r := hri (Nat.succ_pos k)
    subst hr
    have hlt : m.readIndex < kSceneItFrameRingBufferSize := by
      show m.readIndex < 8
      omega
    have hvalid : (m.frames ⟨m.readIndex, hlt⟩).isValid = true :=
      hv ⟨m.readIndex, hlt⟩ (Nat.le_refl _) (by simp)
    have h0 : m.frameCount ≠ 0 := by omega
    have hstep : SceneItVirtualCamera_GetNextFrame cvOk s =
        some (bufferOfSlot cvOk m ⟨m.readIndex, hlt⟩,
          s.withRegion (afterTake m ⟨m.readIndex, hlt⟩)) := by
      rw [getNextFrame_of_attached cvOk hatt, attached_take cvOk m h0 hlt hvalid]; rfl
    have hatt1 := withRegion_attached hatt (afterTake m ⟨m.readIndex, hlt⟩)
    have hc1 : (afterTake m ⟨m.readIndex, hlt⟩).frameCount = k := by
      show (m.frameCount + 2 ^ 32 - 1) % 2 ^ 32 = k
      omega
    have hri1 : 0 < k → (afterTake m ⟨m.readIndex, hlt⟩).readIndex = m.readIndex + 1 := by
      intro hk
      show (m.readIndex + 1) % 2 ^ 32 % 8 = m.readIndex + 1
      omega
    have hv1 : ∀ i : Fin kSceneItFrameRingBufferSize, m.readIndex + 1 ≤ i.val →
        i.val < m.readIndex + 1 + k →
        ((afterTake m ⟨m.readIndex, hlt⟩).frames i).isValid = true := by
      intro i hi1 hi2
      have hne : i ≠ ⟨m.readIndex, hlt⟩ := by
        intro e
        have hval : i.val = m.readIndex := congrArg Fin.val e
        omega
      rw [afterTake_frames_ne m _ i hne]
      exact hv i (by omega) (by omega)
    have hle1 : m.readIndex + 1 + k ≤ kSceneItFrameRingBufferSize := by
      show m.readIndex + 1 + k ≤ 8
      omega
    obtain ⟨m', hrun, hz⟩ :=
      ih (s.withRegion (afterTake m ⟨m.readIndex, hlt⟩)) (afterTake m ⟨m.readIndex, hlt⟩)
        (m.readIndex + 1) hatt1 hc1 hle1 hri1 hv1
    refine ⟨m', ?_, hz⟩
    have hhead : slotBuffer cvOk m (m.readIndex + 0) = bufferOfSlot cvOk m ⟨m.readIndex, hlt⟩ := by
      simp only [slotBuffer, Nat.add_zero, dif_pos hlt]
    have htail : (List.range k).map
          (fun j => slotBuffer cvOk (afterTake m ⟨m.readIndex, hlt⟩) (m.readIndex + 1 + j)) =
        (List.range k).map (fun j => slotBuffer cvOk m (m.readIndex + (j + 1))) := by
      apply List.map_congr_left
      intro j _
      have hne : m.readIndex + 1 + j ≠ (⟨m.readIndex, hlt⟩ : Fin kSceneItFrameRingBufferSize).val := by
        show m.readIndex + 1 + j ≠ m.readIndex
        omega
      rw [slotBuffer_afterTake cvOk m _ _ hne, Nat.add_assoc, Nat.add_comm 1 j]
    rw [htail] at hrun
    rw [List.range_succ_eq_map, List.map_cons, List.map_map, hhead]
    rw [callGetNextFrame, hstep]
    simp only []
    rw [hrun]
    rfl

/-- From an attached region holding `n ≤ 8` valid slots `0 .. n-1` with
`frameCount = n` and `readIndex = 0`, call number `i` of `n` calls returns the
result of the platform call on slot `i`, and one further call returns `NULL`. -/
theorem fifo_drain_requests (cvOk : CVCreateOk) (s : IPCState) (m : SceneItSharedMemory)
    (n : Nat) (hatt : Attached s m) (hn : n ≤ kSceneItFrameRingBufferSize)
    (hr : m.readIndex = 0) (hc : m.frameCount = n)
    (hv : ∀ i : Fin kSceneItFrameRingBufferSize, i.val < n → (m.frames i).isValid = true) :
    ∃ s', callGetNextFrame cvOk n s =
        some ((List.range n).map (fun j => slotBuffer cvOk m (0 + j)), s') ∧
      (∀ i : Fin kSceneItFrameRingBufferSize, i.val < n →
        ((List.range n).map (fun j => slotBuffer cvOk m (0 + j)))[i.val]? =
          some (bufferOfSlot cvOk m i)) ∧
      SceneItVirtualCamera_GetNextFrame cvOk s' = some (none, s') := by
  obtain ⟨m', hrun, hz⟩ := callGetNextFrame_drain cvOk n s m 0 hatt hc (by omega)
    (fun _ => hr) (fun i _ hi => hv i (by omega))
  refine ⟨_, hrun, ?_, C1_core cvOk _ m' (withRegion_attached hatt m') (Or.inl hz)⟩
  intro i hi
  simp [List.getElem?_map, List.getElem?_range hi, slotBuffer]

/-- C3 fails on the code: three frames are published in slots 0, 1, 2 of an
attached region (`frameCount = 3`, `readIndex = 0`, all three flagged valid) and
the platform refuses to create pixel buffers; the three calls return `NULL`,
`NULL`, `NULL`, not the three frames, because the result of
`CVPixelBufferCreateWithBytes` is not checked and the slot is consumed anyway. -/
theorem C3_platform_refusal_returns_null_counterexample :
    (publishedRegion 3).readIndex = 0 ∧ (publishedRegion 3).frameCount = 3 ∧
    (∀ i : Fin kSceneItFrameRingBufferSize, i.val < 3 →
      ((publishedRegion 3).frames i).isValid = true) ∧
    (callGetNextFrame cvRefusesAll 3 (attachedTo (publishedRegion 3))).map Prod.fst =
      some [none, none, none] := by
  refine ⟨rfl, rfl, by decide, ?_⟩
  obtain ⟨s', hrun, _, _⟩ := fifo_drain_requests cvRefusesAll (attachedTo (publishedRegion 3))
    (publishedRegion 3) 3 (attachedTo_attached _) (by decide) rfl rfl (by decide)
  rw [hrun]
  rfl

/-- C3 as amended: from an attached region holding `n ≤ 8` published frames in
slots `0 .. n-1` (flagged valid, `frameCount = n`, `readIndex = 0`), provided
the platform call `CVPixelBufferCreateWithBytes` succeeds for each of the `n`
published descriptors, `n` calls of `SceneItVirtualCamera_GetNextFrame` return
exactly the `n` published frames in publish order (call number `i` returns the
pixel buffer wrapping slot `i` with that descriptor's geometry), and one
further call returns `NULL`. -/
theorem C3_fifo_drain (cvOk : CVCreateOk) (s : IPCState) (m : SceneItSharedMemory) (n : Nat)
    (hatt : Attached s m) (hn : n ≤ kSceneItFrameRingBufferSize)
    (hr : m.readIndex = 0) (hc : m.frameCount = n)
    (hv : ∀ i : Fin kSceneItFrameRingBufferSize, i.val < n → (m.frames i).isValid = true)
    (hok : ∀ i : Fin kSceneItFrameRingBufferSize, i.val < n →
      cvOk (m.frames i).width (m.frames i).height (m.frames i).pixelFormat
        (m.frames i).bytesPerRow = true) :
    ∃ results s', callGetNextFrame cvOk n s = some (results, s') ∧
      results.length = n ∧
      (∀ i : Fin kSceneItFrameRingBufferSize, i.val < n →
        results[i.val]? = some (some (wrapSlot m i))) ∧
      SceneItVirtualCamera_GetNextFrame cvOk s' = some (none, s') := by
  obtain ⟨s', hrun, hget, hlast⟩ := fifo_drain_requests cvOk s m n hatt hn hr hc hv
  refine ⟨_, s', hrun, by simp, ?_, hlast⟩
  intro i hi
  rw [hget i hi]
  simp [bufferOfSlot, CVPixelBufferCreateWithBytes, hok i hi, wrapSlot]

/-- C3 as amended, at a concrete state: a full ring, eight published frames,
on a platform that accepts each of them. -/
theorem C3_fifo_drain_witness :
    Attached (attachedTo (publishedRegion 8)) (publishedRegion 8) ∧
    8 ≤ kSceneItFrameRingBufferSize ∧
    (publishedRegion 8).readIndex = 0 ∧ (publishedRegion 8).frameCount = 8 ∧
    (∀ i : Fin kSceneItFrameRingBufferSize, i.val < 8 →
      ((publishedRegion 8).frames i).isValid = true) ∧
    (∀ i : Fin kSceneItFrameRingBufferSize, i.val < 8 →
      cvAcceptsBGRA ((publishedRegion 8).frames i).width ((publishedRegion 8).frames i).height
        ((publishedRegion 8).frames i).pixelFormat
        ((publishedRegion 8).frames i).bytesPerRow = true) ∧
    ∃ results s', callGetNextFrame cvAcceptsBGRA 8 (attachedTo (publishedRegion 8)) =
        some (results, s') ∧
      results.length = 8 ∧
      (∀ i : Fin kSceneItFrameRingBufferSize, i.val < 8 →
        results[i.val]? = some (some (wrapSlot (publishedRegion 8) i))) ∧
      SceneItVirtualCamera_GetNextFrame cvAcceptsBGRA s' = some (none, s') :=
  ⟨attachedTo_attached _, by decide, rfl, rfl, by decide, by decide,
    C3_fifo_drain cvAcceptsBGRA (attachedTo (publishedRegion 8)) (publishedRegion 8) 8
      (attachedTo_attached _) (by decide) rfl rfl (by decide) (by decide)⟩

/-! ### Initialisation -/

/-- A run of the initialisation that returns `noErr` went through every step:
all four calls succeeded and the state is the one built on the success path. -/
theorem initializeIPC_noErr (env : InitEnv) (s : IPCState)
    (h : (SceneItVirtualCamera_InitializeIPC env s).1 = noErr) :
    ∃ fd a p, env = ⟨some fd, true, some a, some p⟩ ∧
      (SceneItVirtualCamera_InitializeIPC env s).2 =
        { gSharedMemory := .addr a
          gSharedMemoryFD := (fd : Int)
          gFrameSemaphore := .addr p
          shm := .sized zeroRegion
          mapped := a :: s.mapped
          trace := s.trace ++ [.shm_open (some fd)] ++ [.ftruncate (fd : Int) true] ++
            [.mmap (fd : Int) (some a)] ++ [.memset (.addr a)] ++ [.sem_open (some p)] } := by
  obtain ⟨o, f, mm, so⟩ := env
  cases o with
  | none => simp [SceneItVirtualCamera_InitializeIPC] at h
  | some fd =>
    cases f with
    | false => simp [SceneItVirtualCamera_InitializeIPC] at h
    | true =>
      cases mm with
      | none => simp [SceneItVirtualCamera_InitializeIPC] at h
      | some a =>
        cases so with
        | none => simp [SceneItVirtualCamera_InitializeIPC] at h
        | some p => exact ⟨fd, a, p, rfl, rfl⟩

/-- C4 fails on the code: a process attaching to a region that already holds
three unread frames (`frameCount = 3`, `writeIndex = 3`, slot 0 valid) runs the
initialisation successfully and finds `frameCount = 0`, `writeIndex = 0` and
slot 0 not valid: the `memset` at line 429 is unconditional. -/
theorem C4_second_init_resets_counterexample :
    (SceneItVirtualCamera_InitializeIPC envAllOk secondAttach).1 = noErr ∧
    secondAttach.shm.region.map (fun m => (m.frameCount, m.writeIndex, (m.frames 0).isValid)) =
      some (3, 3, true) ∧
    (SceneItVirtualCamera_InitializeIPC envAllOk secondAttach).2.shm.region.map
      (fun m => (m.frameCount, m.writeIndex, (m.frames 0).isValid)) = some (0, 0, false) := by
  refine ⟨rfl, rfl, rfl⟩

/-- C4 as amended: every successful `SceneItVirtualCamera_InitializeIPC`,
whether or not the named region existed and whatever it held, leaves the region
all zero: `writeIndex`, `readIndex` and `frameCount` are 0, every descriptor is
zero with `isValid` false and every payload byte is 0. -/
theorem C4_init_always_zeroes (env : InitEnv) (s : IPCState)
    (h : (SceneItVirtualCamera_InitializeIPC env s).1 = noErr) :
    ∃ m, (SceneItVirtualCamera_InitializeIPC env s).2.shm = .sized m ∧
      m.writeIndex = 0 ∧ m.readIndex = 0 ∧ m.frameCount = 0 ∧
      (∀ i, m.frames i = ⟨0, 0, 0, 0, 0, 0, false⟩) ∧
      (∀ i offset, m.frameData i offset = 0) := by
  obtain ⟨fd, a, p, _, hs⟩ := initializeIPC_noErr env s h
  refine ⟨zeroRegion, by rw [hs], rfl, rfl, rfl, fun _ => rfl, fun _ _ => rfl⟩

/-- C4 as amended, at a concrete state: the second attachment of `secondAttach`. -/
theorem C4_init_always_zeroes_witness :
    (SceneItVirtualCamera_InitializeIPC envAllOk secondAttach).1 = noErr ∧
    ∃ m, (SceneItVirtualCamera_InitializeIPC envAllOk secondAttach).2.shm = .sized m ∧
      m.writeIndex = 0 ∧ m.readIndex = 0 ∧ m.frameCount = 0 ∧
      (∀ i, m.frames i = ⟨0, 0, 0, 0, 0, 0, false⟩) ∧
      (∀ i offset, m.frameData i offset = 0) :=
  ⟨rfl, C4_init_always_zeroes envAllOk secondAttach rfl⟩

/-! ### Teardown -/

/-- C5, the code at the failing inputs: after an initialisation that fails at
`ftruncate`, at `mmap` or at `sem_open`, `SceneItVirtualCamera_CleanupIPC`
closes descriptor 3 a second time (the failure paths close it and leave
`gSharedMemoryFD` at 3), and after the `sem_open` failure it also unmaps the
region a second time (`gSharedMemory` still holds the address). -/
theorem C5_cleanup_after_failed_init_releases_twice :
    (SceneItVirtualCamera_CleanupIPC
        (SceneItVirtualCamera_InitializeIPC envFtruncateFails IPCState.start).2).2.trace =
      [.shm_open (some 3), .ftruncate 3 false, .close 3, .close 3, .shm_unlink] ∧
    (SceneItVirtualCamera_CleanupIPC
        (SceneItVirtualCamera_InitializeIPC envMmapFails IPCState.start).2).2.trace =
      [.shm_open (some 3), .ftruncate 3 true, .mmap 3 none, .close 3, .close 3, .shm_unlink] ∧
    (SceneItVirtualCamera_CleanupIPC
        (SceneItVirtualCamera_InitializeIPC envSemOpenFails IPCState.start).2).2.trace =
      [.shm_open (some 3), .ftruncate 3 true, .mmap 3 (some 4096), .memset (.addr 4096),
        .sem_open none, .munmap (.addr 4096), .close 3, .munmap (.addr 4096), .close 3,
        .shm_unlink] ∧
    releasesOnlyHeld (SceneItVirtualCamera_CleanupIPC
        (SceneItVirtualCamera_InitializeIPC envFtruncateFails IPCState.start).2).2.trace = false ∧
    releasesOnlyHeld (SceneItVirtualCamera_CleanupIPC
        (SceneItVirtualCamera_InitializeIPC envMmapFails IPCState.start).2).2.trace = false ∧
    releasesOnlyHeld (SceneItVirtualCamera_CleanupIPC
        (SceneItVirtualCamera_InitializeIPC envSemOpenFails IPCState.start).2).2.trace = false := by
  refine ⟨by decide, by decide, by decide, by decide, by decide, by decide⟩

/-- C6 fails on the code: in the state a failed `sem_open` leaves behind, one
`SceneItVirtualCamera_CleanupIPC` leaves the semaphore handle at `SEM_FAILED`,
not `NULL`; in the state a failed `mmap` leaves behind it leaves the region
pointer at `MAP_FAILED`, not `NULL`. -/
theorem C6_cleanup_keeps_failed_handles_counterexample :
    (SceneItVirtualCamera_InitializeIPC envSemOpenFails IPCState.start).2.gFrameSemaphore =
      Ptr.failed ∧
    (SceneItVirtualCamera_CleanupIPC
        (SceneItVirtualCamera_InitializeIPC envSemOpenFails IPCState.start).2).2.gFrameSemaphore ≠
      Ptr.null ∧
    (SceneItVirtualCamera_InitializeIPC envMmapFails IPCState.start).2.gSharedMemory =
      Ptr.failed ∧
    (SceneItVirtualCamera_CleanupIPC
        (SceneItVirtualCamera_InitializeIPC envMmapFails IPCState.start).2).2.gSharedMemory ≠
      Ptr.null := by
  refine ⟨by decide, by decide, by decide, by decide⟩

/-- C6 as amended: for every state, after one `SceneItVirtualCamera_CleanupIPC`
the semaphore handle is `NULL` or, if it was `SEM_FAILED`, still `SEM_FAILED`;
the region pointer is `NULL` or, if it was `MAP_FAILED`, still `MAP_FAILED`;
the descriptor is `-1`; a second call issues no system call and leaves the
state unchanged; both calls return `noErr`. -/
theorem C6_cleanup_idempotent (s : IPCState) :
    (SceneItVirtualCamera_CleanupIPC s).1 = noErr ∧
    (SceneItVirtualCamera_CleanupIPC (SceneItVirtualCamera_CleanupIPC s).2).1 = noErr ∧
    ((SceneItVirtualCamera_CleanupIPC s).2.gFrameSemaphore = Ptr.null ∨
      (s.gFrameSemaphore = Ptr.failed ∧
        (SceneItVirtualCamera_CleanupIPC s).2.gFrameSemaphore = Ptr.failed)) ∧
    ((SceneItVirtualCamera_CleanupIPC s).2.gSharedMemory = Ptr.null ∨
      (s.gSharedMemory = Ptr.failed ∧
        (SceneItVirtualCamera_CleanupIPC s).2.gSharedMemory = Ptr.failed)) ∧
    (SceneItVirtualCamera_CleanupIPC s).2.gSharedMemoryFD = -1 ∧
    (SceneItVirtualCamera_CleanupIPC (SceneItVirtualCamera_CleanupIPC s).2).2.trace =
      (SceneItVirtualCamera_CleanupIPC s).2.trace ∧
    (SceneItVirtualCamera_CleanupIPC (SceneItVirtualCamera_CleanupIPC s).2).2 =
      (SceneItVirtualCamera_CleanupIPC s).2 := by
  obtain ⟨p, fd, sem, shm, mapped, trace⟩ := s
  by_cases hfd : fd = -1 <;> cases p <;> cases sem <;>
    simp [SceneItVirtualCamera_CleanupIPC, hfd]

/-! ### Corrupt regions -/

/-- C7 fails on the code: with `frameCount = 9`, read index 0 and slot 0 valid,
the call returns a pixel buffer, not `NULL`, and leaves `frameCount = 8`. -/
theorem C7_over_count_returns_frame_counterexample :
    8 < overCountRegion.frameCount ∧
    SceneItVirtualCamera_GetNextFrame cvAcceptsBGRA (attachedTo overCountRegion) =
      some (some ⟨1920, 1080, kCVPixelFormatType_32BGRA, 0, 7680⟩,
        (attachedTo overCountRegion).withRegion (afterTake overCountRegion 0)) ∧
    (afterTake overCountRegion 0).frameCount = 8 := by
  refine ⟨by decide, ?_, by decide⟩
  rw [getNextFrame_of_attached cvAcceptsBGRA (attachedTo_attached overCountRegion),
    attached_take cvAcceptsBGRA overCountRegion (by decide) (by decide) rfl]
  rfl

/-- C7 as amended: `SceneItVirtualCamera_GetNextFrame` makes no range check on
`frameCount`. On an attached region with `frameCount > 8` (a `uint32_t`) and
`readIndex < 8` it returns `NULL`, changing nothing, when the slot at
`readIndex` is not flagged valid. When that slot is flagged valid it takes the
frame as for any non-zero count: it returns the result of
`CVPixelBufferCreateWithBytes` on that slot, which is the pixel buffer wrapping
the slot when the platform creates it and `NULL` when the platform refuses, and
either way the slot is consumed and `frameCount` goes down by one. -/
theorem C7_over_count_not_checked (cvOk : CVCreateOk) (s : IPCState) (m : SceneItSharedMemory)
    (hatt : Attached s m) (h : 8 < m.frameCount) (hu32 : m.frameCount < 2 ^ 32)
    (hr : m.readIndex < kSceneItFrameRingBufferSize) :
    ((m.frames ⟨m.readIndex, hr⟩).isValid = false →
      SceneItVirtualCamera_GetNextFrame cvOk s = some (none, s)) ∧
    ((m.frames ⟨m.readIndex, hr⟩).isValid = true →
      SceneItVirtualCamera_GetNextFrame cvOk s =
        some (bufferOfSlot cvOk m ⟨m.readIndex, hr⟩,
          s.withRegion (afterTake m ⟨m.readIndex, hr⟩)) ∧
      (cvOk (m.frames ⟨m.readIndex, hr⟩).width (m.frames ⟨m.readIndex, hr⟩).height
          (m.frames ⟨m.readIndex, hr⟩).pixelFormat
          (m.frames ⟨m.readIndex, hr⟩).bytesPerRow = true →
        bufferOfSlot cvOk m ⟨m.readIndex, hr⟩ = some (wrapSlot m ⟨m.readIndex, hr⟩)) ∧
      (cvOk (m.frames ⟨m.readIndex, hr⟩).width (m.frames ⟨m.readIndex, hr⟩).height
          (m.frames ⟨m.readIndex, hr⟩).pixelFormat
          (m.frames ⟨m.readIndex, hr⟩).bytesPerRow = false →
        bufferOfSlot cvOk m ⟨m.readIndex, hr⟩ = none) ∧
      ((afterTake m ⟨m.readIndex, hr⟩).frames ⟨m.readIndex, hr⟩).isValid = false ∧
      (afterTake m ⟨m.readIndex, hr⟩).frameCount + 1 = m.frameCount) := by
  refine ⟨fun hv => C1_core cvOk s m hatt (Or.inr ⟨hr, hv⟩),
    fun hv => ⟨?_, fun hok => ?_, fun hno => ?_, ?_, ?_⟩⟩
  · rw [getNextFrame_of_attached cvOk hatt, attached_take cvOk m (by omega) hr hv]; rfl
  · simp [bufferOfSlot, CVPixelBufferCreateWithBytes, hok, wrapSlot]
  · simp [bufferOfSlot, CVPixelBufferCreateWithBytes, hno]
  · simp [afterTake]
  · show (m.frameCount + 2 ^ 32 - 1) % 2 ^ 32 + 1 = m.frameCount
    omega

/-- C7 as amended, at the concrete region with `frameCount = 9`: on the
accepting platform the valid slot 0 is returned as a pixel buffer, on the
refusing platform the same call returns `NULL`, and both leave
`frameCount = 8`. -/
theorem C7_over_count_not_checked_witness :
    Attached (attachedTo overCountRegion) overCountRegion ∧
    8 < overCountRegion.frameCount ∧ overCountRegion.frameCount < 2 ^ 32 ∧
    (overCountRegion.frames 0).isValid = true ∧
    SceneItVirtualCamera_GetNextFrame cvAcceptsBGRA (attachedTo overCountRegion) =
      some (bufferOfSlot cvAcceptsBGRA overCountRegion 0,
        (attachedTo overCountRegion).withRegion (afterTake overCountRegion 0)) ∧
    bufferOfSlot cvAcceptsBGRA overCountRegion 0 = some (wrapSlot overCountRegion 0) ∧
    SceneItVirtualCamera_GetNextFrame cvRefusesAll (attachedTo overCountRegion) =
      some (bufferOfSlot cvRefusesAll overCountRegion 0,
        (attachedTo overCountRegion).withRegion (afterTake overCountRegion 0)) ∧
    bufferOfSlot cvRefusesAll overCountRegion 0 = none ∧
    (afterTake overCountRegion 0).frameCount + 1 = overCountRegion.frameCount :=
  ⟨attachedTo_attached _, by decide, by decide, rfl,
    ((C7_over_count_not_checked cvAcceptsBGRA (attachedTo overCountRegion) overCountRegion
      (attachedTo_attached _) (by decide) (by decide) (by decide)).2 rfl).1,
    ((C7_over_count_not_checked cvAcceptsBGRA (attachedTo overCountRegion) overCountRegion
      (attachedTo_attached _) (by decide) (by decide) (by decide)).2 rfl).2.1 (by decide),
    ((C7_over_count_not_checked cvRefusesAll (attachedTo overCountRegion) overCountRegion
      (attachedTo_attached _) (by decide) (by decide) (by decide)).2 rfl).1,
    ((C7_over_count_not_checked cvRefusesAll (attachedTo overCountRegion) overCountRegion
      (attachedTo_attached _) (by decide) (by decide) (by decide)).2 rfl).2.2.1 rfl,
    ((C7_over_count_not_checked cvAcceptsBGRA (attachedTo overCountRegion) overCountRegion
      (attachedTo_attached _) (by decide) (by decide) (by decide)).2 rfl).2.2.2.2⟩

/-- C8 fails on the code: slot 0 is flagged valid with height 1081 and 7680
bytes per row, so `height * bytesPerRow = 8302080 > kSceneItMaxFrameSize`; the
call returns a pixel buffer over slot 0 whose extent is 8302080 bytes. -/
theorem C8_oversize_geometry_returned_counterexample :
    (oversizeRegion.frames 0).isValid = true ∧
    kSceneItMaxFrameSize < (oversizeRegion.frames 0).height * (oversizeRegion.frames 0).bytesPerRow ∧
    SceneItVirtualCamera_GetNextFrame cvAcceptsBGRA (attachedTo oversizeRegion) =
      some (some ⟨1920, 1081, kCVPixelFormatType_32BGRA, 0, 7680⟩,
        (attachedTo oversizeRegion).withRegion (afterTake oversizeRegion 0)) ∧
    kSceneItMaxFrameSize <
      (⟨1920, 1081, kCVPixelFormatType_32BGRA, 0, 7680⟩ : CVPixelBuffer).extent := by
  refine ⟨rfl, by decide, ?_, by decide⟩
  rw [getNextFrame_of_attached cvAcceptsBGRA (attachedTo_attached oversizeRegion),
    attached_take cvAcceptsBGRA oversizeRegion (by decide) (by decide) rfl]
  rfl

/-- C8 as amended: `SceneItVirtualCamera_GetNextFrame` does not look at the
geometry. For a slot flagged valid at `readIndex` (count non-zero) it passes
the descriptor's width, height, pixel format and bytes-per-row unchanged to
`CVPixelBufferCreateWithBytes` over that slot's payload and returns what the
call gives: the buffer wrapping the slot with extent `height * bytesPerRow` of
the descriptor when the platform creates it, `NULL` only when the platform
refuses; the slot is consumed either way. -/
theorem C8_geometry_not_checked (cvOk : CVCreateOk) (s : IPCState) (m : SceneItSharedMemory)
    (hatt : Attached s m) (h0 : m.frameCount ≠ 0)
    (hr : m.readIndex < kSceneItFrameRingBufferSize)
    (hv : (m.frames ⟨m.readIndex, hr⟩).isValid = true) :
    SceneItVirtualCamera_GetNextFrame cvOk s =
      some (bufferOfSlot cvOk m ⟨m.readIndex, hr⟩,
        s.withRegion (afterTake m ⟨m.readIndex, hr⟩)) ∧
    (cvOk (m.frames ⟨m.readIndex, hr⟩).width (m.frames ⟨m.readIndex, hr⟩).height
        (m.frames ⟨m.readIndex, hr⟩).pixelFormat (m.frames ⟨m.readIndex, hr⟩).bytesPerRow = true →
      bufferOfSlot cvOk m ⟨m.readIndex, hr⟩ = some (wrapSlot m ⟨m.readIndex, hr⟩) ∧
      (wrapSlot m ⟨m.readIndex, hr⟩).extent =
        (m.frames ⟨m.readIndex, hr⟩).height * (m.frames ⟨m.readIndex, hr⟩).bytesPerRow) ∧
    (cvOk (m.frames ⟨m.readIndex, hr⟩).width (m.frames ⟨m.readIndex, hr⟩).height
        (m.frames ⟨m.readIndex, hr⟩).pixelFormat (m.frames ⟨m.readIndex, hr⟩).bytesPerRow = false →
      bufferOfSlot cvOk m ⟨m.readIndex, hr⟩ = none) ∧
    ((afterTake m ⟨m.readIndex, hr⟩).frames ⟨m.readIndex, hr⟩).isValid = false := by
  refine ⟨?_, fun hok => ⟨?_, rfl⟩, fun hno => ?_, ?_⟩
  · rw [getNextFrame_of_attached cvOk hatt, attached_take cvOk m h0 hr hv]; rfl
  · simp [bufferOfSlot, CVPixelBufferCreateWithBytes, hok, wrapSlot]
  · simp [bufferOfSlot, CVPixelBufferCreateWithBytes, hno]
  · simp [afterTake]

/-- C8 as amended, at the concrete oversize region. -/
theorem C8_geometry_not_checked_witness :
    Attached (attachedTo oversizeRegion) oversizeRegion ∧ oversizeRegion.frameCount ≠ 0 ∧
    ∃ hr : oversizeRegion.readIndex < kSceneItFrameRingBufferSize,
      (oversizeRegion.frames ⟨oversizeRegion.readIndex, hr⟩).isValid = true ∧
      SceneItVirtualCamera_GetNextFrame cvAcceptsBGRA (attachedTo oversizeRegion) =
        some (bufferOfSlot cvAcceptsBGRA oversizeRegion ⟨oversizeRegion.readIndex, hr⟩,
          (attachedTo oversizeRegion).withRegion
            (afterTake oversizeRegion ⟨oversizeRegion.readIndex, hr⟩)) :=
  ⟨attachedTo_attached _, by decide, by decide, rfl,
    (C8_geometry_not_checked cvAcceptsBGRA (attachedTo oversizeRegion) oversizeRegion
      (attachedTo_attached _) (by decide) (by decide) rfl).1⟩

/-! ### What the consumer receives -/

/-- C9 fails on the code: two regions whose published descriptor differs in
`timestamp` (1000 against 2000) and `frameIndex` (7 against 8) hand the same
value to the consumer, a pixel buffer with width, height, format, base address
and bytes-per-row only; `timestamp` and `frameIndex` are not passed to
`CVPixelBufferCreateWithBytes` and do not reach the caller. -/
theorem C9_timestamp_frameIndex_dropped_counterexample :
    ((stampedRegion 1000 7).frames 0).timestamp ≠ ((stampedRegion 2000 8).frames 0).timestamp ∧
    ((stampedRegion 1000 7).frames 0).frameIndex ≠ ((stampedRegion 2000 8).frames 0).frameIndex ∧
    (SceneItVirtualCamera_GetNextFrame cvAcceptsBGRA (attachedTo (stampedRegion 1000 7))).map
        Prod.fst =
      some (some ⟨1920, 1080, kCVPixelFormatType_32BGRA, 0, 7680⟩) ∧
    (SceneItVirtualCamera_GetNextFrame cvAcceptsBGRA (attachedTo (stampedRegion 2000 8))).map
        Prod.fst =
      some (some ⟨1920, 1080, kCVPixelFormatType_32BGRA, 0, 7680⟩) := by
  refine ⟨by decide, by decide, ?_, ?_⟩
  · rw [getNextFrame_of_attached cvAcceptsBGRA (attachedTo_attached _),
      attached_take cvAcceptsBGRA (stampedRegion 1000 7) (by decide) (by decide) rfl]
    rfl
  · rw [getNextFrame_of_attached cvAcceptsBGRA (attachedTo_attached _),
      attached_take cvAcceptsBGRA (stampedRegion 2000 8) (by decide) (by decide) rfl]
    rfl

/-- C9 as amended: for every descriptor sitting valid at `readIndex = r` of an
attached region (count non-zero) for which the platform creates the pixel
buffer, the buffer handed to the consumer carries the descriptor's `width`,
`height`, `bytesPerRow` and `pixelFormat` and wraps the payload
`frameData[r]`, which the call leaves byte for byte as it was. The descriptor's
`timestamp` and `frameIndex` are not handed over: the returned value is the
same whatever they are. -/
theorem C9_round_trip_geometry_payload (cvOk : CVCreateOk) (s : IPCState)
    (m : SceneItSharedMemory) (r : Fin kSceneItFrameRingBufferSize)
    (hatt : Attached s m) (h0 : m.frameCount ≠ 0) (hr : m.readIndex = r.val)
    (hv : (m.frames r).isValid = true)
    (hok : cvOk (m.frames r).width (m.frames r).height (m.frames r).pixelFormat
      (m.frames r).bytesPerRow = true) :
    (∃ b m', SceneItVirtualCamera_GetNextFrame cvOk s = some (some b, s.withRegion m') ∧
      b.width = (m.frames r).width ∧ b.height = (m.frames r).height ∧
      b.bytesPerRow = (m.frames r).bytesPerRow ∧ b.pixelFormatType = (m.frames r).pixelFormat ∧
      b.baseAddress = r ∧ m'.frameData b.baseAddress = m.frameData r) ∧
    (∀ t i : Nat,
      bufferOfSlot cvOk
          { m with frames := Function.update m.frames r
                     ({ m.frames r with timestamp := t, frameIndex := i }) } r =
        bufferOfSlot cvOk m r) := by
  have hlt : m.readIndex < kSceneItFrameRingBufferSize := hr ▸ r.isLt
  have hslot : (⟨m.readIndex, hlt⟩ : Fin kSceneItFrameRingBufferSize) = r := Fin.ext hr
  have hbody := attached_take cvOk m h0 hlt (by rw [hslot]; exact hv)
  rw [hslot] at hbody
  have hbuf : bufferOfSlot cvOk m r = some (wrapSlot m r) := by
    simp [bufferOfSlot, CVPixelBufferCreateWithBytes, hok, wrapSlot]
  refine ⟨⟨wrapSlot m r, afterTake m r, ?_, rfl, rfl, rfl, rfl, rfl, rfl⟩, fun t i => ?_⟩
  · rw [getNextFrame_of_attached cvOk hatt, hbody, hbuf]; rfl
  · simp [bufferOfSlot]

/-- C9 as amended, at the descriptor of the spec: 1920 x 1080, 7680 bytes per
row, BGRA, timestamp 1000, frame index 7, valid in slot 0. -/
theorem C9_round_trip_geometry_payload_witness :
    Attached (attachedTo (stampedRegion 1000 7)) (stampedRegion 1000 7) ∧
    (stampedRegion 1000 7).frameCount ≠ 0 ∧
    (stampedRegion 1000 7).readIndex = (0 : Fin kSceneItFrameRingBufferSize).val ∧
    ((stampedRegion 1000 7).frames 0) = hdFrame 1000 7 ∧
    cvAcceptsBGRA 1920 1080 kCVPixelFormatType_32BGRA 7680 = true ∧
    ∃ b m', SceneItVirtualCamera_GetNextFrame cvAcceptsBGRA (attachedTo (stampedRegion 1000 7)) =
        some (some b, (attachedTo (stampedRegion 1000 7)).withRegion m') ∧
      b.width = 1920 ∧ b.height = 1080 ∧ b.bytesPerRow = 7680 ∧
      b.pixelFormatType = kCVPixelFormatType_32BGRA ∧ b.baseAddress = 0 ∧
      m'.frameData b.baseAddress = (stampedRegion 1000 7).frameData 0 :=
  ⟨attachedTo_attached _, by decide, rfl, rfl, by decide,
    (C9_round_trip_geometry_payload cvAcceptsBGRA (attachedTo (stampedRegion 1000 7))
      (stampedRegion 1000 7) 0 (attachedTo_attached _) (by decide) rfl rfl (by decide)).1⟩

/-! ### First initialisation -/

/-- C10: after a successful `SceneItVirtualCamera_InitializeIPC` in any state,
in particular one where the named region did not exist, the region is all
zero: `writeIndex`, `readIndex` and `frameCount` are 0 and each of the eight
descriptors has `isValid` false; the module state is attached to it and the
first `SceneItVirtualCamera_GetNextFrame` returns `NULL`, changing nothing. -/
theorem C10_fresh_init_zero_first_call_empty (cvOk : CVCreateOk) (env : InitEnv) (s : IPCState)
    (h : (SceneItVirtualCamera_InitializeIPC env s).1 = noErr) :
    ∃ m, Attached (SceneItVirtualCamera_InitializeIPC env s).2 m ∧
      m.writeIndex = 0 ∧ m.readIndex = 0 ∧ m.frameCount = 0 ∧
      (∀ i : Fin kSceneItFrameRingBufferSize, (m.frames i).isValid = false) ∧
      SceneItVirtualCamera_GetNextFrame cvOk (SceneItVirtualCamera_InitializeIPC env s).2 =
        some (none, (SceneItVirtualCamera_InitializeIPC env s).2) := by
  obtain ⟨fd, a, p, _, hs⟩ := initializeIPC_noErr env s h
  have hatt : Attached (SceneItVirtualCamera_InitializeIPC env s).2 zeroRegion := by
    rw [hs]
    exact ⟨a, rfl, by simp, rfl⟩
  exact ⟨zeroRegion, hatt, rfl, rfl, rfl, fun _ => rfl,
    C1_core cvOk _ zeroRegion hatt (Or.inl rfl)⟩

/-- C10 at a concrete run: the first initialisation of a process, every call
succeeding. -/
theorem C10_fresh_init_zero_first_call_empty_witness :
    IPCState.start.shm = .absent ∧
    (SceneItVirtualCamera_InitializeIPC envAllOk IPCState.start).1 = noErr ∧
    ∃ m, Attached (SceneItVirtualCamera_InitializeIPC envAllOk IPCState.start).2 m ∧
      m.writeIndex = 0 ∧ m.readIndex = 0 ∧ m.frameCount = 0 ∧
      (∀ i : Fin kSceneItFrameRingBufferSize, (m.frames i).isValid = false) ∧
      SceneItVirtualCamera_GetNextFrame cvAcceptsBGRA
          (SceneItVirtualCamera_InitializeIPC envAllOk IPCState.start).2 =
        some (none, (SceneItVirtualCamera_InitializeIPC envAllOk IPCState.start).2) :=
  ⟨rfl, rfl, C10_fresh_init_zero_first_call_empty cvAcceptsBGRA envAllOk IPCState.start rfl⟩

/-! ### Invariant and frame of the consumer -/

/-- Where the body is defined (count zero, or read index inside the ring) it
either returns `NULL` and writes nothing, or takes the valid slot at the read
index. -/
theorem attached_cases (cvOk : CVCreateOk) (m : SceneItSharedMemory)
    (h : m.frameCount = 0 ∨ m.readIndex < kSceneItFrameRingBufferSize) :
    GetNextFrame_attached cvOk m = some (none, m) ∨
    ∃ hr : m.readIndex < kSceneItFrameRingBufferSize,
      m.frameCount ≠ 0 ∧ (m.frames ⟨m.readIndex, hr⟩).isValid = true ∧
      GetNextFrame_attached cvOk m =
        some (bufferOfSlot cvOk m ⟨m.readIndex, hr⟩, afterTake m ⟨m.readIndex, hr⟩) := by
  by_cases h0 : m.frameCount = 0
  · exact Or.inl (attached_count_zero cvOk m h0)
  · have hr : m.readIndex < kSceneItFrameRingBufferSize := h.resolve_left h0
    cases hv : (m.frames ⟨m.readIndex, hr⟩).isValid with
    | false => exact Or.inl (attached_slot_invalid cvOk m hr hv)
    | true => exact Or.inr ⟨hr, h0, hv, attached_take cvOk m h0 hr hv⟩

/-- C11: on an attached region with `frameCount <= 8` and `readIndex < 8` the
call has a defined result (the accesses `frames[readIndex]` and
`frameData[readIndex]` are inside the eight-slot arrays), and afterwards
`frameCount <= 8` and `readIndex < 8` still hold, whether a frame or `NULL`
was returned; `frameCount` is either what it was or exactly one less, so it
does not wrap below zero. -/
theorem C11_wellformed_preserved (cvOk : CVCreateOk) (s : IPCState) (m : SceneItSharedMemory)
    (hatt : Attached s m) (hc : m.frameCount ≤ 8) (hr : m.readIndex < 8) :
    ∃ b m', SceneItVirtualCamera_GetNextFrame cvOk s = some (b, s.withRegion m') ∧
      m'.frameCount ≤ 8 ∧ m'.readIndex < 8 ∧
      (m'.frameCount = m.frameCount ∨ m'.frameCount + 1 = m.frameCount) := by
  rcases attached_cases cvOk m (Or.inr hr) with hnone | ⟨hlt, h0, _, htake⟩
  · refine ⟨none, m, ?_, hc, hr, Or.inl rfl⟩
    rw [getNextFrame_of_attached cvOk hatt, hnone]; rfl
  · refine ⟨bufferOfSlot cvOk m ⟨m.readIndex, hlt⟩, afterTake m ⟨m.readIndex, hlt⟩, ?_, ?_, ?_, ?_⟩
    · rw [getNextFrame_of_attached cvOk hatt, htake]; rfl
    · show (m.frameCount + 2 ^ 32 - 1) % 2 ^ 32 ≤ 8
      omega
    · show (m.readIndex + 1) % 2 ^ 32 % 8 < 8
      omega
    · right
      show (m.frameCount + 2 ^ 32 - 1) % 2 ^ 32 + 1 = m.frameCount
      omega

/-- C11 at a concrete state: a full ring, `frameCount = 8`, `readIndex = 0`. -/
theorem C11_wellformed_preserved_witness :
    Attached (attachedTo (publishedRegion 8)) (publishedRegion 8) ∧
    (publishedRegion 8).frameCount ≤ 8 ∧ (publishedRegion 8).readIndex < 8 ∧
    ∃ b m', SceneItVirtualCamera_GetNextFrame cvAcceptsBGRA (attachedTo (publishedRegion 8)) =
        some (b, (attachedTo (publishedRegion 8)).withRegion m') ∧
      m'.frameCount ≤ 8 ∧ m'.readIndex < 8 ∧
      (m'.frameCount = (publishedRegion 8).frameCount ∨
        m'.frameCount + 1 = (publishedRegion 8).frameCount) :=
  ⟨attachedTo_attached _, by decide, by decide,
    C11_wellformed_preserved cvAcceptsBGRA (attachedTo (publishedRegion 8)) (publishedRegion 8)
      (attachedTo_attached _) (by decide) (by decide)⟩

/-- With the read index inside the ring (or the count zero) the byte-level
body is the array-level body: same region afterwards, same pixel buffer. -/
theorem bytes_eq_attached (cvOk : CVCreateOk) (m : SceneItSharedMemory)
    (h : m.frameCount = 0 ∨ m.readIndex < kSceneItFrameRingBufferSize) :
    GetNextFrame_bytes cvOk m =
      (GetNextFrame_attached cvOk m).map (fun r => (r.1.map CVPixelBuffer.toAt, r.2)) := by
  by_cases h0 : m.frameCount = 0
  · simp [GetNextFrame_bytes, GetNextFrame_attached, h0]
  · have hr : m.readIndex < kSceneItFrameRingBufferSize := h.resolve_left h0
    cases hv : (m.frames ⟨m.readIndex, hr⟩).isValid with
    | false =>
      rw [attached_slot_invalid cvOk m hr hv]
      simp [GetNextFrame_bytes, h0, descriptorAt, hr, hv]
    | true =>
      rw [attached_take cvOk m h0 hr hv]
      unfold GetNextFrame_bytes
      rw [if_neg h0]
      simp only [descriptorAt, dif_pos hr, hv, clearIsValidAt]
      by_cases hok : cvOk (m.frames ⟨m.readIndex, hr⟩).width (m.frames ⟨m.readIndex, hr⟩).height
          (m.frames ⟨m.readIndex, hr⟩).pixelFormat (m.frames ⟨m.readIndex, hr⟩).bytesPerRow = true
      · simp [hok, bufferOfSlot, CVPixelBufferCreateWithBytes, CVPixelBuffer.toAt, afterTake]
      · simp [hok, bufferOfSlot, CVPixelBufferCreateWithBytes, afterTake]

/-- C12 fails on the code: with `readIndex = 8` and `frameCount = 1` the access
`frames[readIndex]` is outside the array (the array-level body has no defined
result) and, by the layout of the header, is the first 32 bytes of
`frameData[0]`. Payload byte `frameData[0][28]` is 1, so line 477 reads the
flag as true, and line 495 stores `false` there: the payload of slot 0, a slot
other than `readIndex`, is changed from 1 to 0. -/
theorem C12_read_index_beyond_ring_counterexample :
    (SceneItVirtualCamera_GetNextFrame cvAcceptsBGRA (attachedTo beyondRegion)).isSome = false ∧
    (0 : Fin kSceneItFrameRingBufferSize).val ≠ beyondRegion.readIndex ∧
    beyondRegion.frameData 0 28 = 1 ∧
    (GetNextFrame_bytes cvAcceptsBGRA beyondRegion).map (fun r => r.2.frameData 0 28) =
      some 0 := by
  refine ⟨?_, by decide, by decide, ?_⟩
  · rfl
  · rfl

/-- C12 as amended: on an attached region with `frameCount = 0` or
`readIndex < 8`, `SceneItVirtualCamera_GetNextFrame` changes nothing
outside the region, leaves `writeIndex` unchanged, leaves every payload
unchanged (the one at `readIndex` included), leaves the descriptor of every
slot other than `readIndex` unchanged, and in every descriptor, the one at
`readIndex` included, leaves `width`, `height`, `bytesPerRow`, `pixelFormat`,
`timestamp` and `frameIndex` unchanged: only `readIndex`, `frameCount` and
`frames[readIndex].isValid` can differ. -/
theorem C12_consumer_frame (cvOk : CVCreateOk) (s : IPCState) (m : SceneItSharedMemory)
    (hatt : Attached s m)
    (hdef : m.frameCount = 0 ∨ m.readIndex < kSceneItFrameRingBufferSize) :
    ∃ b m', SceneItVirtualCamera_GetNextFrame cvOk s = some (b, s.withRegion m') ∧
      m'.writeIndex = m.writeIndex ∧
      (∀ i offset, m'.frameData i offset = m.frameData i offset) ∧
      (∀ i : Fin kSceneItFrameRingBufferSize, i.val ≠ m.readIndex → m'.frames i = m.frames i) ∧
      (∀ i : Fin kSceneItFrameRingBufferSize,
        (m'.frames i).width = (m.frames i).width ∧
        (m'.frames i).height = (m.frames i).height ∧
        (m'.frames i).bytesPerRow = (m.frames i).bytesPerRow ∧
        (m'.frames i).pixelFormat = (m.frames i).pixelFormat ∧
        (m'.frames i).timestamp = (m.frames i).timestamp ∧
        (m'.frames i).frameIndex = (m.frames i).frameIndex) := by
  rcases attached_cases cvOk m hdef with hnone | ⟨hlt, _, _, htake⟩
  · refine ⟨none, m, ?_, rfl, fun _ _ => rfl, fun _ _ => rfl, fun _ => ⟨rfl, rfl, rfl, rfl, rfl, rfl⟩⟩
    rw [getNextFrame_of_attached cvOk hatt, hnone]; rfl
  · refine ⟨bufferOfSlot cvOk m ⟨m.readIndex, hlt⟩, afterTake m ⟨m.readIndex, hlt⟩, ?_, rfl,
      fun _ _ => rfl, ?_, ?_⟩
    · rw [getNextFrame_of_attached cvOk hatt, htake]; rfl
    · intro i hi
      exact afterTake_frames_ne m _ i (fun e => hi (congrArg Fin.val e))
    · intro i
      by_cases hi : i = ⟨m.readIndex, hlt⟩
      · subst hi
        simp [afterTake]
      · rw [afterTake_frames_ne m _ i hi]
        exact ⟨rfl, rfl, rfl, rfl, rfl, rfl⟩

/-- C12 as amended, at a concrete state: three frames waiting, slot 0 is taken. -/
theorem C12_consumer_frame_witness :
    Attached (attachedTo (publishedRegion 3)) (publishedRegion 3) ∧
    ((publishedRegion 3).frameCount = 0 ∨
      (publishedRegion 3).readIndex < kSceneItFrameRingBufferSize) ∧
    ∃ b m', SceneItVirtualCamera_GetNextFrame cvAcceptsBGRA (attachedTo (publishedRegion 3)) =
        some (b, (attachedTo (publishedRegion 3)).withRegion m') ∧
      m'.writeIndex = (publishedRegion 3).writeIndex ∧
      (∀ i offset, m'.frameData i offset = (publishedRegion 3).frameData i offset) ∧
      (∀ i : Fin kSceneItFrameRingBufferSize, i.val ≠ (publishedRegion 3).readIndex →
        m'.frames i = (publishedRegion 3).frames i) ∧
      (∀ i : Fin kSceneItFrameRingBufferSize,
        (m'.frames i).width = ((publishedRegion 3).frames i).width ∧
        (m'.frames i).height = ((publishedRegion 3).frames i).height ∧
        (m'.frames i).bytesPerRow = ((publishedRegion 3).frames i).bytesPerRow ∧
        (m'.frames i).pixelFormat = ((publishedRegion 3).frames i).pixelFormat ∧
        (m'.frames i).timestamp = ((publishedRegion 3).frames i).timestamp ∧
        (m'.frames i).frameIndex = ((publishedRegion 3).frames i).frameIndex) :=
  ⟨attachedTo_attached _, Or.inr (by decide),
    C12_consumer_frame cvAcceptsBGRA (attachedTo (publishedRegion 3)) (publishedRegion 3)
      (attachedTo_attached _) (Or.inr (by decide))⟩

end SceneIt
